import Mathlib

/-!
Verification of the CLAP context adapters of `nih-plug`
(`src/wrapper/clap/context.rs`): the init-time adapter
(`WrapperInitContext`), the processing adapter (`WrapperProcessContext`)
and the GUI adapter (`WrapperGuiContext`).

The Rust code is shallowly embedded as explicit state passing:
each adapter method becomes a Lean function from state to state.
Machine floats (`f32`/`f64`) are modelled by `ℚ`; the scaling performed
by the code never inspects or branches on the float value, so exact
arithmetic models it faithfully.  Collaborators of the adapters that live
in other files of the repository (the `Wrapper`'s bounded output-event
queue, its task queues and the debug `ParamGestureChecker`) are modelled
from the specification and carry a doc comment saying so.
-/

namespace NihPlug.ClapContext

/-- A raw parameter handle (`ParamPtr` in the source). -/
abbrev ParamPtr := Nat

/-- `OutputParamEvent` from `wrapper.rs`, as consumed by
`queue_parameter_event` calls in `context.rs`: gesture begin/end and a
value change carrying the CLAP plain value. -/
inductive OutputParamEvent where
  | BeginGesture (param_hash : Nat)
  | SetValue (param_hash : Nat) (clap_plain_value : ℚ)
  | EndGesture (param_hash : Nat)
  deriving DecidableEq, Repr

/-- Modelled from the spec: the bounded host-event outbox owned by the
`Wrapper` (its implementation, `Wrapper::queue_parameter_event`, lives in
`wrapper.rs`, which is not among the given sources).  The spec states the
queue has a fixed capacity with a non-blocking enqueue that reports
success or failure, and that overflow drops the newest event, leaving the
queue unchanged. -/
structure Outbox where
  capacity : Nat
  events : List OutputParamEvent
  deriving DecidableEq, Repr

/-- Modelled from the spec: enqueue one event; on success the event goes
to the back, on a full queue nothing changes and `false` is reported. -/
def queue_parameter_event (ob : Outbox) (e : OutputParamEvent) :
    Outbox × Bool :=
  if ob.events.length < ob.capacity then
    ({ ob with events := ob.events ++ [e] }, true)
  else
    (ob, false)

/-- `nih_debug_assert!`: in debug builds a false condition appends a
diagnostic message; it never changes control flow. -/
def nih_debug_assert (cond : Bool) (msg : String) (diags : List String) :
    List String :=
  if cond then diags else diags ++ [msg]

/-- `nih_debug_assert_failure!`: unconditionally appends a diagnostic. -/
def nih_debug_assert_failure (msg : String) (diags : List String) :
    List String :=
  diags ++ [msg]

/-- Per-parameter gesture state of the debug checker. -/
inductive GestureState where
  | Idle
  | InGesture
  deriving DecidableEq, Repr

/-- The gesture-state table: one entry per parameter id, newest first. -/
abbrev GestureTable := List (String × GestureState)

/-- Look a parameter id up in the gesture table; absent ids are `Idle`
(entries are created lazily on first observed transition). -/
def gestureGet (tbl : GestureTable) (pid : String) : GestureState :=
  (tbl.lookup pid).getD GestureState.Idle

/-- Overwrite a parameter id's gesture state (new binding shadows). -/
def gestureSet (tbl : GestureTable) (pid : String) (s : GestureState) :
    GestureTable :=
  (pid, s) :: tbl

/-- Modelled from the spec: `ParamGestureChecker::begin_set_parameter`
(the checker lives in `wrapper/util/context_checks.rs`, not among the
given sources).  Transition to `InGesture`; a `Begin` while already
`InGesture` is a protocol violation that only raises a diagnostic. -/
def checker_begin_set_parameter (tbl : GestureTable) (pid : String)
    (diags : List String) : GestureTable × List String :=
  let diags' :=
    if gestureGet tbl pid = GestureState.InGesture then
      diags ++ ["gesture violation: duplicate begin for " ++ pid]
    else diags
  (gestureSet tbl pid GestureState.InGesture, diags')

/-- Modelled from the spec: `ParamGestureChecker::set_parameter`.
`Set` leaves the gesture state unchanged; a `Set` while `Idle` is a
protocol violation that only raises a diagnostic. -/
def checker_set_parameter (tbl : GestureTable) (pid : String)
    (diags : List String) : GestureTable × List String :=
  let diags' :=
    if gestureGet tbl pid = GestureState.Idle then
      diags ++ ["gesture violation: set without begin for " ++ pid]
    else diags
  (tbl, diags')

/-- Modelled from the spec: `ParamGestureChecker::end_set_parameter`.
Transition back to `Idle`; an `End` while already `Idle` is a protocol
violation that only raises a diagnostic. -/
def checker_end_set_parameter (tbl : GestureTable) (pid : String)
    (diags : List String) : GestureTable × List String :=
  let diags' :=
    if gestureGet tbl pid = GestureState.Idle then
      diags ++ ["gesture violation: end without begin for " ++ pid]
    else diags
  (gestureSet tbl pid GestureState.Idle, diags')

/-- The immutable lookup structure of the `Wrapper` that the GUI context
consults: `param_ptr_to_hash`, `param_id_from_ptr`, and the parameter's
own `step_count()` (an attribute of the `ParamPtr`, `None` for
continuous parameters). -/
structure Wrapper where
  param_ptr_to_hash : ParamPtr → Option Nat
  param_id_from_ptr : ParamPtr → Option String
  step_count : ParamPtr → Option Nat

/-- The mutable state touched by `WrapperGuiContext` methods: the
output-event outbox, the debug gesture table, and the debug diagnostics
emitted so far. -/
structure GuiState where
  outbox : Outbox
  gesture : GestureTable
  diags : List String
  deriving DecidableEq, Repr

/-- The plain-value conversion of `raw_set_parameter_normalized`
(line 170 of `context.rs`):
`normalized as f64 * param.step_count().unwrap_or(1) as f64`. -/
def clap_plain_value (normalized : ℚ) (sc : Option Nat) : ℚ :=
  normalized * ((sc.getD 1 : Nat) : ℚ)

/-- `WrapperGuiContext::raw_begin_set_parameter` (debug build): resolve
the handle to its hash and enqueue a `BeginGesture`, then run the debug
gesture checker; each resolution failure or full queue only raises a
diagnostic. -/
def raw_begin_set_parameter (w : Wrapper) (st : GuiState)
    (param : ParamPtr) : GuiState :=
  let st1 :=
    match w.param_ptr_to_hash param with
    | some hash =>
        let qr := queue_parameter_event st.outbox
          (OutputParamEvent.BeginGesture hash)
        { st with
            outbox := qr.1
            diags := nih_debug_assert qr.2
              "Parameter output event queue was full" st.diags }
    | none =>
        { st with
            diags := nih_debug_assert_failure "Unknown parameter" st.diags }
  match w.param_id_from_ptr param with
  | some pid =>
      let cr := checker_begin_set_parameter st1.gesture pid st1.diags
      { st1 with gesture := cr.1, diags := cr.2 }
  | none =>
      { st1 with
          diags := nih_debug_assert_failure
            "raw_begin_set_parameter called with an unknown ParamPtr"
            st1.diags }

/-- `WrapperGuiContext::raw_set_parameter_normalized` (debug build):
resolve the handle, scale the normalized value by the step count
(or 1 when continuous) and enqueue a `SetValue`, then run the debug
gesture checker. -/
def raw_set_parameter_normalized (w : Wrapper) (st : GuiState)
    (param : ParamPtr) (normalized : ℚ) : GuiState :=
  let st1 :=
    match w.param_ptr_to_hash param with
    | some hash =>
        let qr := queue_parameter_event st.outbox
          (OutputParamEvent.SetValue hash
            (clap_plain_value normalized (w.step_count param)))
        { st with
            outbox := qr.1
            diags := nih_debug_assert qr.2
              "Parameter output event queue was full" st.diags }
    | none =>
        { st with
            diags := nih_debug_assert_failure "Unknown parameter" st.diags }
  match w.param_id_from_ptr param with
  | some pid =>
      let cr := checker_set_parameter st1.gesture pid st1.diags
      { st1 with gesture := cr.1, diags := cr.2 }
  | none =>
      { st1 with
          diags := nih_debug_assert_failure
            "raw_set_parameter called with an unknown ParamPtr" st1.diags }

/-- `WrapperGuiContext::raw_end_set_parameter` (debug build): resolve the
handle and enqueue an `EndGesture`, then run the debug gesture checker. -/
def raw_end_set_parameter (w : Wrapper) (st : GuiState)
    (param : ParamPtr) : GuiState :=
  let st1 :=
    match w.param_ptr_to_hash param with
    | some hash =>
        let qr := queue_parameter_event st.outbox
          (OutputParamEvent.EndGesture hash)
        { st with
            outbox := qr.1
            diags := nih_debug_assert qr.2
              "Parameter output event queue was full" st.diags }
    | none =>
        { st with
            diags := nih_debug_assert_failure "Unknown parameter" st.diags }
  match w.param_id_from_ptr param with
  | some pid =>
      let cr := checker_end_set_parameter st1.gesture pid st1.diags
      { st1 with gesture := cr.1, diags := cr.2 }
  | none =>
      { st1 with
          diags := nih_debug_assert_failure
            "raw_end_set_parameter called with an unknown ParamPtr" st1.diags }

/-- Release build of `raw_begin_set_parameter`: the
`cfg(debug_assertions)` block is compiled out and `nih_debug_assert!` is
a no-op, leaving only the outbox effect. -/
def raw_begin_set_parameter_release (w : Wrapper) (ob : Outbox)
    (param : ParamPtr) : Outbox :=
  match w.param_ptr_to_hash param with
  | some hash =>
      (queue_parameter_event ob (OutputParamEvent.BeginGesture hash)).1
  | none => ob

/-- Release build of `raw_set_parameter_normalized`: only the outbox
effect remains. -/
def raw_set_parameter_normalized_release (w : Wrapper) (ob : Outbox)
    (param : ParamPtr) (normalized : ℚ) : Outbox :=
  match w.param_ptr_to_hash param with
  | some hash =>
      (queue_parameter_event ob (OutputParamEvent.SetValue hash
        (clap_plain_value normalized (w.step_count param)))).1
  | none => ob

/-- Release build of `raw_end_set_parameter`: only the outbox effect
remains. -/
def raw_end_set_parameter_release (w : Wrapper) (ob : Outbox)
    (param : ParamPtr) : Outbox :=
  match w.param_ptr_to_hash param with
  | some hash =>
      (queue_parameter_event ob (OutputParamEvent.EndGesture hash)).1
  | none => ob

/-! ### The init context (`WrapperInitContext`) -/

/-- State of one `WrapperInitContext` together with the engine-visible
effects it causes.  `pending_latency` is the
`PendingInitContextRequests.latency_changed` cell;
`latency_notifications` records every `wrapper.set_latency_samples` call
that reaches the engine; `executed` records tasks run through the
wrapper's `task_executor`; `voice_capacity_calls` records immediate
`set_current_voice_capacity` forwards. -/
structure InitState (T : Type) where
  pending_latency : Option Nat
  latency_notifications : List Nat
  executed : List T
  voice_capacity_calls : List Nat
  deriving Repr

/-- A fresh `WrapperInitContext`: empty cell, no effects yet. -/
def initInitState (T : Type) : InitState T :=
  { pending_latency := none
    latency_notifications := []
    executed := []
    voice_capacity_calls := [] }

/-- `WrapperInitContext::set_latency_samples`: store into the pending
cell, overwriting any prior value; the engine is not called. -/
def init_set_latency_samples {T : Type} (st : InitState T) (n : Nat) :
    InitState T :=
  { st with pending_latency := some n }

/-- `WrapperInitContext::execute`: run the task synchronously through the
wrapper's task executor, exactly once. -/
def init_execute {T : Type} (st : InitState T) (t : T) : InitState T :=
  { st with executed := st.executed ++ [t] }

/-- `WrapperInitContext::set_current_voice_capacity`: forwarded to the
wrapper immediately. -/
def init_set_current_voice_capacity {T : Type} (st : InitState T)
    (n : Nat) : InitState T :=
  { st with voice_capacity_calls := st.voice_capacity_calls ++ [n] }

/-- `Drop for WrapperInitContext`: `take` the pending cell and, if it
held a value, send exactly one `set_latency_samples` notification to the
engine. -/
def init_drop {T : Type} (st : InitState T) : InitState T :=
  match st.pending_latency with
  | some n =>
      { st with
          pending_latency := none
          latency_notifications := st.latency_notifications ++ [n] }
  | none => st

/-- One call made on a `WrapperInitContext` before it is dropped. -/
inductive InitCall (T : Type) where
  | setLatencySamples (n : Nat)
  | execute (t : T)
  | setCurrentVoiceCapacity (n : Nat)

/-- Interpret one init-context call. -/
def init_step {T : Type} (st : InitState T) (c : InitCall T) :
    InitState T :=
  match c with
  | InitCall.setLatencySamples n => init_set_latency_samples st n
  | InitCall.execute t => init_execute st t
  | InitCall.setCurrentVoiceCapacity n => init_set_current_voice_capacity st n

/-- Interpret a sequence of init-context calls, in order. -/
def init_run {T : Type} (st : InitState T) (cs : List (InitCall T)) :
    InitState T :=
  cs.foldl init_step st

/-- The value of the last `setLatencySamples` call in a sequence, given
the cell's prior content. -/
def last_latency_from {T : Type} (p : Option Nat) (cs : List (InitCall T)) :
    Option Nat :=
  cs.foldl
    (fun acc c =>
      match c with
      | InitCall.setLatencySamples n => some n
      | _ => acc)
    p

/-! ### The processing context (`WrapperProcessContext`) -/

/-- Modelled from the spec: a bounded task queue of the `Wrapper`
(`schedule_background` / `schedule_gui` live in `wrapper.rs`, not among
the given sources).  Non-blocking enqueue reporting success; a full
queue drops the task and reports failure. -/
structure BoundedTaskQueue (T : Type) where
  capacity : Nat
  tasks : List T
  deriving Repr

/-- Modelled from the spec: try to enqueue a task, never blocking. -/
def schedule {T : Type} (q : BoundedTaskQueue T) (t : T) :
    BoundedTaskQueue T × Bool :=
  if q.tasks.length < q.capacity then
    ({ q with tasks := q.tasks ++ [t] }, true)
  else
    (q, false)

/-- State held by one `WrapperProcessContext`: the exclusively borrowed
input/output event queues (`VecDeque`s, front at the list head), the two
task queues of the wrapper, and debug diagnostics. -/
structure ProcessState (Ev T : Type) where
  input_events : List Ev
  output_events : List Ev
  background_tasks : BoundedTaskQueue T
  gui_tasks : BoundedTaskQueue T
  diags : List String
  deriving Repr

/-- `WrapperProcessContext::next_event`: `pop_front` on the input queue —
return the earliest event and remove it. -/
def next_event {Ev T : Type} (st : ProcessState Ev T) :
    Option Ev × ProcessState Ev T :=
  match st.input_events with
  | [] => (none, st)
  | e :: rest => (some e, { st with input_events := rest })

/-- `WrapperProcessContext::peek_event`: `front` on the input queue —
return the earliest event without removing it (takes the state
immutably, so it cannot change the queue). -/
def peek_event {Ev T : Type} (st : ProcessState Ev T) : Option Ev :=
  st.input_events.head?

/-- `WrapperProcessContext::send_event`: `push_back` on the output
queue. -/
def send_event {Ev T : Type} (st : ProcessState Ev T) (e : Ev) :
    ProcessState Ev T :=
  { st with output_events := st.output_events ++ [e] }

/-- `WrapperProcessContext::execute_background`: try to enqueue the task
on the background-task queue; a full queue only raises a debug
diagnostic, the task is dropped and nothing is returned. -/
def execute_background {Ev T : Type} (st : ProcessState Ev T) (t : T) :
    ProcessState Ev T :=
  let r := schedule st.background_tasks t
  { st with
      background_tasks := r.1
      diags := nih_debug_assert r.2
        "The task queue is full, dropping task..." st.diags }

/-- `WrapperProcessContext::execute_gui`: same policy on the GUI-task
queue. -/
def execute_gui {Ev T : Type} (st : ProcessState Ev T) (t : T) :
    ProcessState Ev T :=
  let r := schedule st.gui_tasks t
  { st with
      gui_tasks := r.1
      diags := nih_debug_assert r.2
        "The task queue is full, dropping task..." st.diags }

/-- Repeatedly call `next_event` (up to `fuel` times), collecting every
returned event in order. -/
def drain_events {Ev T : Type} : Nat → ProcessState Ev T → List Ev
  | 0, _ => []
  | Nat.succ n, st =>
      match next_event st with
      | (none, _) => []
      | (some e, st') => e :: drain_events n st'

/-! ### Helper lemmas -/

/-- Running a sequence of init-context calls never notifies the engine of
a latency change and leaves the pending cell at the last written value. -/
theorem init_run_pending {T : Type} (cs : List (InitCall T)) :
    ∀ st : InitState T,
      (init_run st cs).latency_notifications = st.latency_notifications ∧
      (init_run st cs).pending_latency
        = last_latency_from st.pending_latency cs := by
  induction cs with
  | nil => intro st; exact ⟨rfl, rfl⟩
  | cons c cs ih =>
      intro st
      cases c with
      | setLatencySamples n =>
          simpa [init_run, last_latency_from, init_step,
            init_set_latency_samples] using ih (init_set_latency_samples st n)
      | execute t =>
          simpa [init_run, last_latency_from, init_step,
            init_execute] using ih (init_execute st t)
      | setCurrentVoiceCapacity n =>
          simpa [init_run, last_latency_from, init_step,
            init_set_current_voice_capacity]
            using ih (init_set_current_voice_capacity st n)

/-- Dropping the init context appends the pending value (if any) as a
single engine notification. -/
theorem init_drop_notifications {T : Type} (st : InitState T) :
    (init_drop st).latency_notifications
      = st.latency_notifications ++ st.pending_latency.toList := by
  cases h : st.pending_latency <;> simp [init_drop, h]

/-- Draining the input queue with `next_event` returns its whole content
in order. -/
theorem drain_events_all {Ev T : Type} :
    ∀ (l : List Ev) (st : ProcessState Ev T), st.input_events = l →
      drain_events l.length st = l := by
  intro l
  induction l with
  | nil => intro st _; rfl
  | cons e rest ih =>
      intro st h
      simp only [List.length_cons, drain_events, next_event, h]
      exact congrArg (e :: ·) (ih _ rfl)

/-- Sending a list of events appends them to the output queue in call
order. -/
theorem send_events_append {Ev T : Type} :
    ∀ (es : List Ev) (st : ProcessState Ev T),
      (es.foldl send_event st).output_events = st.output_events ++ es := by
  intro es
  induction es with
  | nil => intro st; simp [List.foldl]
  | cons e rest ih =>
      intro st
      rw [List.foldl_cons, ih (send_event st e)]
      simp [send_event]

/-- The outbox effect of the debug build of `raw_begin_set_parameter`
equals the release build's: the debug checker never touches the outbox. -/
theorem raw_begin_outbox (w : Wrapper) (st : GuiState) (p : ParamPtr) :
    (raw_begin_set_parameter w st p).outbox
      = raw_begin_set_parameter_release w st.outbox p := by
  unfold raw_begin_set_parameter raw_begin_set_parameter_release
  cases h1 : w.param_ptr_to_hash p <;>
    cases h2 : w.param_id_from_ptr p <;> simp [h1, h2]

/-- The outbox effect of the debug build of `raw_set_parameter_normalized`
equals the release build's. -/
theorem raw_set_outbox (w : Wrapper) (st : GuiState) (p : ParamPtr)
    (q : ℚ) :
    (raw_set_parameter_normalized w st p q).outbox
      = raw_set_parameter_normalized_release w st.outbox p q := by
  unfold raw_set_parameter_normalized raw_set_parameter_normalized_release
  cases h1 : w.param_ptr_to_hash p <;>
    cases h2 : w.param_id_from_ptr p <;> simp [h1, h2]

/-- The outbox effect of the debug build of `raw_end_set_parameter`
equals the release build's. -/
theorem raw_end_outbox (w : Wrapper) (st : GuiState) (p : ParamPtr) :
    (raw_end_set_parameter w st p).outbox
      = raw_end_set_parameter_release w st.outbox p := by
  unfold raw_end_set_parameter raw_end_set_parameter_release
  cases h1 : w.param_ptr_to_hash p <;>
    cases h2 : w.param_id_from_ptr p <;> simp [h1, h2]

/-- Enqueueing on a full outbox changes nothing and reports failure. -/
theorem queue_parameter_event_full (ob : Outbox) (e : OutputParamEvent)
    (hfull : ¬ ob.events.length < ob.capacity) :
    (queue_parameter_event ob e).1 = ob ∧
    (queue_parameter_event ob e).2 = false := by
  simp [queue_parameter_event, hfull]

/-- Whether the enqueue succeeds depends only on the queue, never on the
event being enqueued. -/
theorem queue_parameter_event_success (ob : Outbox) (e : OutputParamEvent) :
    (queue_parameter_event ob e).2
      = decide (ob.events.length < ob.capacity) := by
  unfold queue_parameter_event
  split <;> simp_all

/-- Overwriting a gesture entry makes a subsequent lookup return it. -/
theorem gestureGet_set (tbl : GestureTable) (pid : String)
    (s : GestureState) : gestureGet (gestureSet tbl pid s) pid = s := by
  simp [gestureGet, gestureSet, List.lookup]

/-! ### The claims -/

/-- Claim C1: for every sequence of calls made on one
`WrapperInitContext` before it is dropped, no `set_latency_samples` call
reaches the engine at call time — each such call only overwrites the
single pending latency cell, last write wins — and dropping the adapter
sends exactly one `wrapper.set_latency_samples` notification carrying
the last written value, or none when `set_latency_samples` was never
called. -/
theorem init_latency_last_write_wins {T : Type} (cs : List (InitCall T)) :
    (init_run (initInitState T) cs).latency_notifications = [] ∧
    (init_drop (init_run (initInitState T) cs)).latency_notifications
      = (last_latency_from none cs).toList ∧
    (∀ (st : InitState T) (n : Nat),
      (init_set_latency_samples st n).latency_notifications
          = st.latency_notifications ∧
      (init_set_latency_samples st n).pending_latency = some n) := by
  obtain ⟨hnotif, hpend⟩ := init_run_pending cs (initInitState T)
  refine ⟨hnotif, ?_, fun st n => ⟨rfl, rfl⟩⟩
  rw [init_drop_notifications, hnotif, hpend]
  rfl

/-- Claim C3: on the processing context, `next_event` pops the earliest
input event (repeated calls drain in strict FIFO arrival order),
`peek_event` returns the same event a subsequent `next_event` would
without changing the queues (it is a pure read), and every `send_event`
appends to the back of the output queue so output events appear in call
order. -/
theorem process_event_queues_fifo {Ev T : Type} (st : ProcessState Ev T) :
    drain_events st.input_events.length st = st.input_events ∧
    peek_event st = (next_event st).1 ∧
    (next_event st).2.input_events = st.input_events.tail ∧
    (next_event st).2.output_events = st.output_events ∧
    (∀ e : Ev, (send_event st e).output_events
        = st.output_events ++ [e] ∧
      (send_event st e).input_events = st.input_events) ∧
    (∀ es : List Ev, (es.foldl send_event st).output_events
        = st.output_events ++ es) := by
  refine ⟨drain_events_all _ st rfl, ?_, ?_, ?_,
    fun e => ⟨rfl, rfl⟩, fun es => send_events_append es st⟩ <;>
    cases h : st.input_events <;>
      simp [peek_event, next_event, h]

/-- Claim C8: `WrapperInitContext::execute` runs the task through the
wrapper's task executor synchronously on the calling thread, exactly
once per call, before returning — in the sequential model, the executed
log grows by exactly that one task and nothing else changes. -/
theorem init_execute_runs_task_once {T : Type} (st : InitState T) (t : T) :
    (init_execute st t).executed = st.executed ++ [t] ∧
    (init_execute st t).pending_latency = st.pending_latency ∧
    (init_execute st t).latency_notifications
      = st.latency_notifications ∧
    (init_execute st t).voice_capacity_calls = st.voice_capacity_calls :=
  ⟨rfl, rfl, rfl, rfl⟩

/-- Claim C2: for every parameter handle that resolves to a host hash,
`raw_set_parameter_normalized` enqueues a `SetValue` event whose plain
value is the normalized value times the discrete step count when the
parameter is stepped, and the normalized value unscaled (step count
treated as 1) when it is continuous; in particular step count 4 with
normalized 0.5 yields plain value 2, and no step count with normalized
0.37 yields plain value 0.37. -/
theorem set_parameter_normalized_scaling (w : Wrapper) (st : GuiState)
    (p : ParamPtr) (hash : Nat) (q : ℚ)
    (hhash : w.param_ptr_to_hash p = some hash)
    (hroom : st.outbox.events.length < st.outbox.capacity) :
    (raw_set_parameter_normalized w st p q).outbox.events
      = st.outbox.events ++
          [OutputParamEvent.SetValue hash
            (clap_plain_value q (w.step_count p))] ∧
    (∀ (r : ℚ) (n : Nat), clap_plain_value r (some n) = r * n) ∧
    (∀ r : ℚ, clap_plain_value r none = r) ∧
    clap_plain_value (1 / 2) (some 4) = 2 ∧
    clap_plain_value (37 / 100) none = 37 / 100 := by
  refine ⟨?_, fun r n => by simp [clap_plain_value],
    fun r => by simp [clap_plain_value],
    by norm_num [clap_plain_value], by norm_num [clap_plain_value]⟩
  rw [raw_set_outbox]
  simp [raw_set_parameter_normalized_release, hhash,
    queue_parameter_event, hroom]

/-- Witness for claim C2: a stepped parameter (step count 4, hash 7)
with room in the outbox; `raw_set_parameter_normalized` at 0.5 enqueues
`SetValue 7 2`. -/
def wit_wrapper : Wrapper :=
  { param_ptr_to_hash := fun p => if p = 0 then some 7 else none
    param_id_from_ptr := fun p => if p = 0 then some "gain" else none
    step_count := fun p => if p = 0 then some 4 else none }

/-- An empty GUI state with an outbox of capacity 2. -/
def wit_gui_state : GuiState :=
  { outbox := { capacity := 2, events := [] }
    gesture := []
    diags := [] }

/-- A GUI state whose outbox is already full (capacity 1, one event). -/
def wit_full_state : GuiState :=
  { outbox := { capacity := 1, events := [OutputParamEvent.BeginGesture 7] }
    gesture := []
    diags := [] }

theorem set_parameter_normalized_scaling_witness :
    wit_wrapper.param_ptr_to_hash 0 = some 7 ∧
    wit_gui_state.outbox.events.length < wit_gui_state.outbox.capacity ∧
    (raw_set_parameter_normalized wit_wrapper wit_gui_state 0
        (1 / 2)).outbox.events
      = wit_gui_state.outbox.events ++
          [OutputParamEvent.SetValue 7
            (clap_plain_value (1 / 2) (wit_wrapper.step_count 0))] :=
  ⟨by decide, by decide,
    (set_parameter_normalized_scaling wit_wrapper wit_gui_state 0 7 (1 / 2)
      (by decide) (by decide)).1⟩

/-- Claim C4: the host-visible enqueue performed by
`raw_begin_set_parameter`, `raw_set_parameter_normalized` and
`raw_end_set_parameter` is independent of the debug gesture checker's
state: two runs that differ only in the gesture-state table (and the
diagnostics log) reach identical outboxes, so a gesture protocol
violation never prevents or alters the underlying host notification. -/
theorem gesture_state_does_not_gate_enqueue (w : Wrapper) (p : ParamPtr)
    (q : ℚ) (st st' : GuiState) (h : st.outbox = st'.outbox) :
    (raw_begin_set_parameter w st p).outbox
      = (raw_begin_set_parameter w st' p).outbox ∧
    (raw_set_parameter_normalized w st p q).outbox
      = (raw_set_parameter_normalized w st' p q).outbox ∧
    (raw_end_set_parameter w st p).outbox
      = (raw_end_set_parameter w st' p).outbox := by
  rw [raw_begin_outbox, raw_begin_outbox, raw_set_outbox, raw_set_outbox,
    raw_end_outbox, raw_end_outbox, h]
  exact ⟨rfl, rfl, rfl⟩

theorem gesture_state_does_not_gate_enqueue_witness :
    ({ wit_gui_state with
        gesture := [("gain", GestureState.InGesture)] } : GuiState).outbox
      = wit_gui_state.outbox ∧
    (raw_begin_set_parameter wit_wrapper
        { wit_gui_state with
            gesture := [("gain", GestureState.InGesture)] } 0).outbox
      = (raw_begin_set_parameter wit_wrapper wit_gui_state 0).outbox :=
  ⟨rfl,
    (gesture_state_does_not_gate_enqueue wit_wrapper 0 0
      { wit_gui_state with gesture := [("gain", GestureState.InGesture)] }
      wit_gui_state rfl).1⟩

/-- Claim C5: a parameter handle that resolves in neither wrapper lookup
makes each of the three gesture calls a no-op with respect to
host-visible state — nothing is enqueued in debug or release builds, the
gesture table is untouched, only debug diagnostics are appended, and (as
total state-to-state functions) no error is returned to the caller. -/
theorem unknown_param_noop (w : Wrapper) (st : GuiState) (p : ParamPtr)
    (q : ℚ) (hhash : w.param_ptr_to_hash p = none)
    (hid : w.param_id_from_ptr p = none) :
    ((raw_begin_set_parameter w st p).outbox = st.outbox ∧
      (raw_begin_set_parameter w st p).gesture = st.gesture ∧
      (raw_begin_set_parameter w st p).diags
        = st.diags ++ ["Unknown parameter",
            "raw_begin_set_parameter called with an unknown ParamPtr"]) ∧
    ((raw_set_parameter_normalized w st p q).outbox = st.outbox ∧
      (raw_set_parameter_normalized w st p q).gesture = st.gesture ∧
      (raw_set_parameter_normalized w st p q).diags
        = st.diags ++ ["Unknown parameter",
            "raw_set_parameter called with an unknown ParamPtr"]) ∧
    ((raw_end_set_parameter w st p).outbox = st.outbox ∧
      (raw_end_set_parameter w st p).gesture = st.gesture ∧
      (raw_end_set_parameter w st p).diags
        = st.diags ++ ["Unknown parameter",
            "raw_end_set_parameter called with an unknown ParamPtr"]) ∧
    raw_begin_set_parameter_release w st.outbox p = st.outbox ∧
    raw_set_parameter_normalized_release w st.outbox p q = st.outbox ∧
    raw_end_set_parameter_release w st.outbox p = st.outbox := by
  refine ⟨?_, ?_, ?_, ?_, ?_, ?_⟩ <;>
    simp [raw_begin_set_parameter, raw_set_parameter_normalized,
      raw_end_set_parameter, raw_begin_set_parameter_release,
      raw_set_parameter_normalized_release,
      raw_end_set_parameter_release, hhash, hid,
      nih_debug_assert_failure]

theorem unknown_param_noop_witness :
    wit_wrapper.param_ptr_to_hash 1 = none ∧
    wit_wrapper.param_id_from_ptr 1 = none ∧
    (raw_begin_set_parameter wit_wrapper wit_gui_state 1).outbox
      = wit_gui_state.outbox ∧
    (raw_begin_set_parameter wit_wrapper wit_gui_state 1).gesture
      = wit_gui_state.gesture :=
  ⟨by decide, by decide,
    ((unknown_param_noop wit_wrapper wit_gui_state 1 0
        (by decide) (by decide)).1).1,
    ((unknown_param_noop wit_wrapper wit_gui_state 1 0
        (by decide) (by decide)).1).2.1⟩

/-- Claim C6: `execute_background` and `execute_gui` return no value to
the caller (they are total state transformers with no error component);
when the task queue reports it is full the task is dropped without retry
and without any error value, the queues and event queues are left
unchanged, and the only effect is a debug-only diagnostic. -/
theorem task_queue_full_drops_task {Ev T : Type} (st : ProcessState Ev T)
    (t : T)
    (hbg : ¬ st.background_tasks.tasks.length < st.background_tasks.capacity)
    (hgui : ¬ st.gui_tasks.tasks.length < st.gui_tasks.capacity) :
    ((execute_background st t).background_tasks.tasks
        = st.background_tasks.tasks ∧
      (execute_background st t).gui_tasks = st.gui_tasks ∧
      (execute_background st t).input_events = st.input_events ∧
      (execute_background st t).output_events = st.output_events ∧
      (execute_background st t).diags
        = st.diags ++ ["The task queue is full, dropping task..."]) ∧
    ((execute_gui st t).gui_tasks.tasks = st.gui_tasks.tasks ∧
      (execute_gui st t).background_tasks = st.background_tasks ∧
      (execute_gui st t).input_events = st.input_events ∧
      (execute_gui st t).output_events = st.output_events ∧
      (execute_gui st t).diags
        = st.diags ++ ["The task queue is full, dropping task..."]) := by
  constructor <;>
    refine ⟨?_, ?_, ?_, ?_, ?_⟩ <;>
      simp [execute_background, execute_gui, schedule, hbg, hgui,
        nih_debug_assert]

/-- A processing state whose task queues are full (capacity 0). -/
def wit_proc_state : ProcessState Nat Nat :=
  { input_events := [10, 20]
    output_events := []
    background_tasks := { capacity := 0, tasks := [] }
    gui_tasks := { capacity := 0, tasks := [] }
    diags := [] }

theorem task_queue_full_drops_task_witness :
    ¬ wit_proc_state.background_tasks.tasks.length
        < wit_proc_state.background_tasks.capacity ∧
    ¬ wit_proc_state.gui_tasks.tasks.length
        < wit_proc_state.gui_tasks.capacity ∧
    (execute_background wit_proc_state 3).background_tasks.tasks
      = wit_proc_state.background_tasks.tasks ∧
    (execute_background wit_proc_state 3).diags
      = wit_proc_state.diags ++ ["The task queue is full, dropping task..."] :=
  ⟨by decide, by decide,
    ((task_queue_full_drops_task wit_proc_state 3
        (by decide) (by decide)).1).1,
    ((task_queue_full_drops_task wit_proc_state 3
        (by decide) (by decide)).1).2.2.2.2⟩

/-- Claim C7: when the outbox enqueue reports failure because the queue
is at capacity, each GUI parameter call leaves the outbox unchanged —
the oldest queued events are preserved and the newest event is the one
dropped — and the adapter neither retries nor reports an error to the
caller, raising only a debug-only diagnostic. -/
theorem outbox_full_drops_newest (w : Wrapper) (st : GuiState)
    (p : ParamPtr) (hash : Nat) (q : ℚ)
    (hhash : w.param_ptr_to_hash p = some hash)
    (hfull : ¬ st.outbox.events.length < st.outbox.capacity) :
    (raw_begin_set_parameter w st p).outbox = st.outbox ∧
    (raw_set_parameter_normalized w st p q).outbox = st.outbox ∧
    (raw_end_set_parameter w st p).outbox = st.outbox ∧
    "Parameter output event queue was full"
      ∈ (raw_begin_set_parameter w st p).diags ∧
    (∀ e : OutputParamEvent,
      (queue_parameter_event st.outbox e).1 = st.outbox ∧
      (queue_parameter_event st.outbox e).2 = false) := by
  refine ⟨?_, ?_, ?_, ?_, fun e => queue_parameter_event_full _ e hfull⟩
  · rw [raw_begin_outbox]
    simp [raw_begin_set_parameter_release, hhash, queue_parameter_event,
      hfull]
  · rw [raw_set_outbox]
    simp [raw_set_parameter_normalized_release, hhash,
      queue_parameter_event, hfull]
  · rw [raw_end_outbox]
    simp [raw_end_set_parameter_release, hhash, queue_parameter_event,
      hfull]
  · unfold raw_begin_set_parameter
    cases h2 : w.param_id_from_ptr p
    · simp [hhash, h2, queue_parameter_event, hfull, nih_debug_assert,
        nih_debug_assert_failure]
    · simp [hhash, h2, queue_parameter_event, hfull, nih_debug_assert,
        nih_debug_assert_failure, checker_begin_set_parameter, gestureSet]
      split <;> simp

theorem outbox_full_drops_newest_witness :
    wit_wrapper.param_ptr_to_hash 0 = some 7 ∧
    ¬ wit_full_state.outbox.events.length < wit_full_state.outbox.capacity ∧
    (raw_begin_set_parameter wit_wrapper wit_full_state 0).outbox
      = wit_full_state.outbox ∧
    "Parameter output event queue was full"
      ∈ (raw_begin_set_parameter wit_wrapper wit_full_state 0).diags :=
  ⟨by decide, by decide,
    (outbox_full_drops_newest wit_wrapper wit_full_state 0 7 0
        (by decide) (by decide)).1,
    (outbox_full_drops_newest wit_wrapper wit_full_state 0 7 0
        (by decide) (by decide)).2.2.2.1⟩

/-- Claim C9: `raw_set_parameter_normalized` performs no clamping or
validation of its normalized argument: for every value, including values
outside the interval from 0 to 1, the same scaling (normalized times
step count, or 1) is applied and the resulting `SetValue` event is
enqueued unchanged, and neither the diagnostics nor the gesture table
depend on the value, so out-of-range input is never rejected or
flagged.  (The machine floats are modelled by `ℚ`; the source never
inspects or branches on the value, which is what this theorem states.) -/
theorem set_parameter_normalized_no_clamping (w : Wrapper) (st : GuiState)
    (p : ParamPtr) (hash : Nat)
    (hhash : w.param_ptr_to_hash p = some hash) :
    (∀ q : ℚ, (raw_set_parameter_normalized w st p q).outbox
        = (queue_parameter_event st.outbox
            (OutputParamEvent.SetValue hash
              (clap_plain_value q (w.step_count p)))).1) ∧
    (∀ q : ℚ, clap_plain_value q (w.step_count p)
        = q * (((w.step_count p).getD 1 : Nat) : ℚ)) ∧
    (∀ q q' : ℚ,
      (raw_set_parameter_normalized w st p q).gesture
          = (raw_set_parameter_normalized w st p q').gesture ∧
      (raw_set_parameter_normalized w st p q).diags
          = (raw_set_parameter_normalized w st p q').diags) := by
  refine ⟨fun q => ?_, fun q => rfl, fun q q' => ?_⟩
  · rw [raw_set_outbox]
    simp [raw_set_parameter_normalized_release, hhash]
  · unfold raw_set_parameter_normalized
    cases h2 : w.param_id_from_ptr p <;>
      simp [hhash, h2, queue_parameter_event_success]

theorem set_parameter_normalized_no_clamping_witness :
    wit_wrapper.param_ptr_to_hash 0 = some 7 ∧
    (raw_set_parameter_normalized wit_wrapper wit_gui_state 0 5).outbox
      = (queue_parameter_event wit_gui_state.outbox
          (OutputParamEvent.SetValue 7
            (clap_plain_value 5 (wit_wrapper.step_count 0)))).1 ∧
    (raw_set_parameter_normalized wit_wrapper wit_gui_state 0 5).diags
      = (raw_set_parameter_normalized wit_wrapper wit_gui_state 0
          (-3)).diags :=
  ⟨by decide,
    (set_parameter_normalized_no_clamping wit_wrapper wit_gui_state 0 7
        (by decide)).1 5,
    ((set_parameter_normalized_no_clamping wit_wrapper wit_gui_state 0 7
        (by decide)).2.2 5 (-3)).2⟩

/-- Claim C10: in debug builds, the gesture-state table is updated
unconditionally even when the outbox enqueue fails because the queue is
full: with a known parameter and a full outbox, `raw_begin_set_parameter`
records `InGesture` and `raw_end_set_parameter` records `Idle` while the
outbox is unchanged, and `raw_set_parameter_normalized` still runs the
checker (flagging a set without begin) — so the debug gesture state can
record a transition whose host-visible event was never queued. -/
theorem gesture_checker_updates_despite_full_outbox (w : Wrapper)
    (st : GuiState) (p : ParamPtr) (hash : Nat) (pid : String) (q : ℚ)
    (hhash : w.param_ptr_to_hash p = some hash)
    (hid : w.param_id_from_ptr p = some pid)
    (hfull : ¬ st.outbox.events.length < st.outbox.capacity) :
    ((raw_begin_set_parameter w st p).outbox = st.outbox ∧
      gestureGet (raw_begin_set_parameter w st p).gesture pid
        = GestureState.InGesture) ∧
    ((raw_end_set_parameter w st p).outbox = st.outbox ∧
      gestureGet (raw_end_set_parameter w st p).gesture pid
        = GestureState.Idle) ∧
    ((raw_set_parameter_normalized w st p q).outbox = st.outbox ∧
      (gestureGet st.gesture pid = GestureState.Idle →
        "gesture violation: set without begin for " ++ pid
          ∈ (raw_set_parameter_normalized w st p q).diags)) := by
  refine ⟨⟨?_, ?_⟩, ⟨?_, ?_⟩, ?_, ?_⟩
  · rw [raw_begin_outbox]
    simp [raw_begin_set_parameter_release, hhash, queue_parameter_event,
      hfull]
  · unfold raw_begin_set_parameter
    simp [hhash, hid, checker_begin_set_parameter, gestureGet_set]
  · rw [raw_end_outbox]
    simp [raw_end_set_parameter_release, hhash, queue_parameter_event,
      hfull]
  · unfold raw_end_set_parameter
    simp [hhash, hid, checker_end_set_parameter, gestureGet_set]
  · rw [raw_set_outbox]
    simp [raw_set_parameter_normalized_release, hhash,
      queue_parameter_event, hfull]
  · intro hidle
    unfold raw_set_parameter_normalized
    simp [hhash, hid, checker_set_parameter, hidle]

theorem gesture_checker_updates_despite_full_outbox_witness :
    wit_wrapper.param_ptr_to_hash 0 = some 7 ∧
    wit_wrapper.param_id_from_ptr 0 = some "gain" ∧
    ¬ wit_full_state.outbox.events.length < wit_full_state.outbox.capacity ∧
    ((raw_begin_set_parameter wit_wrapper wit_full_state 0).outbox
        = wit_full_state.outbox ∧
      gestureGet (raw_begin_set_parameter wit_wrapper wit_full_state 0).gesture
          "gain" = GestureState.InGesture) :=
  ⟨by decide, by decide, by decide,
    (gesture_checker_updates_despite_full_outbox wit_wrapper wit_full_state
        0 7 "gain" 0 (by decide) (by decide) (by decide)).1⟩

end NihPlug.ClapContext
